import Mathlib

/-!
Verification of the review-classification utility
(`main.py`, `test.py`): the model-output parser, column guessing,
CSV row processing, dataframe cleaning, file-format dispatch, and the
spec's label-canonicalization and scoring contracts.

Python strings are embedded as `String` / `List Char`; string
primitives (`strip`, `lower`, `split`, substring test) are defined
here over `List Char` so that every definition is executable and
kernel-reducible.
-/

/-- Python `str.strip()` on a character list: drop whitespace from
both ends. -/
def trimChars (l : List Char) : List Char :=
  ((l.dropWhile Char.isWhitespace).reverse.dropWhile Char.isWhitespace).reverse

/-- Python `str.strip()` on a `String`. -/
def pyStrip (s : String) : String :=
  ⟨trimChars s.data⟩

/-- Python `str.lower()` (ASCII-faithful). -/
def pyLower (s : String) : String :=
  ⟨s.data.map Char.toLower⟩

/-- Python `pat in s` (substring test), over character lists. -/
def containsSub (pat : List Char) : List Char → Bool
  | [] => pat.isEmpty
  | c :: t => pat.isPrefixOf (c :: t) || containsSub pat t

/-- The characters after the first `:` of a line, `none` when the line
has no colon.  `some` corresponds to Python `ln.split(":", 1)[1]`;
`none` corresponds to the `IndexError` that `[1]` raises. -/
def afterFirstColon : List Char → Option (List Char)
  | [] => none
  | c :: t => if c = ':' then some t else afterFirstColon t

/-- Python `str.splitlines()` over characters (handling `\n`, `\r\n`,
`\r`; a trailing terminator yields a final empty line, which the
parser filters out anyway). -/
def splitLinesCh : List Char → List (List Char)
  | [] => [[]]
  | '\r' :: '\n' :: t => [] :: splitLinesCh t
  | '\n' :: t => [] :: splitLinesCh t
  | '\r' :: t => [] :: splitLinesCh t
  | c :: t =>
    match splitLinesCh t with
    | [] => [[c]]
    | h :: r => (c :: h) :: r

/-- The loop body of `_parse_model_output` (test.py:79-86): scan the
stripped non-blank lines, filling each still-empty field from the
first line whose lowercase form contains the field's token, with the
text after the line's first colon, stripped.  A matched line with no
colon makes `ln.split(":", 1)[1]` raise `IndexError`, embedded as
`none`. -/
def parseLines : List (List Char) → List Char → List Char → List Char →
    Option (List Char × List Char × List Char)
  | [], decision, violation, explanation => some (decision, violation, explanation)
  | ln :: rest, decision, violation, explanation =>
    let low := ln.map Char.toLower
    if containsSub "decision:".data low ∧ decision = [] then
      (afterFirstColon ln).bind fun d => parseLines rest (trimChars d) violation explanation
    else if containsSub "primary violation".data low ∧ violation = [] then
      (afterFirstColon ln).bind fun v => parseLines rest decision (trimChars v) explanation
    else if containsSub "explanation:".data low ∧ explanation = [] then
      (afterFirstColon ln).bind fun e => parseLines rest decision violation (trimChars e)
    else
      parseLines rest decision violation explanation

/-- The stripped non-blank lines of the model output:
`[l.strip() for l in output_text.splitlines() if l.strip()]`
(test.py:76). -/
def strippedLines (output_text : String) : List (List Char) :=
  ((splitLinesCh output_text.data).map trimChars).filter (· ≠ [])

/-- Repackage a triple of character lists as strings. -/
def strTriple (t : List Char × List Char × List Char) : String × String × String :=
  (⟨t.1⟩, ⟨t.2.1⟩, ⟨t.2.2⟩)

/-- `_parse_model_output` (test.py:70-88).  `none` embeds an uncaught
`IndexError`; `some (d, v, e)` is the returned triple. -/
def parseModelOutput (output_text : String) : Option (String × String × String) :=
  (parseLines (strippedLines output_text) [] [] []).map strTriple

/-- The spec's reading of the colon split: the text after the line's
first colon, trimmed (empty when the line has no colon, a case the
spec does not mention). -/
def specAfterColon (ln : List Char) : List Char :=
  match afterFirstColon ln with
  | some t => trimChars t
  | none => []

/-- Written from the spec's words: "a best-effort line scanner that
looks for the literal tokens `decision:`, `primary violation`, and
`explanation:` (case-insensitive substring match) to pull out three
fields", each field taken from its first matching line as the text
after that line's first colon, trimmed. -/
def specFieldScan : List (List Char) → List Char × List Char × List Char → List Char × List Char × List Char
  | [], acc => acc
  | ln :: rest, (decision, violation, explanation) =>
    let low := ln.map Char.toLower
    if containsSub "decision:".data low ∧ decision = [] then
      specFieldScan rest (specAfterColon ln, violation, explanation)
    else if containsSub "primary violation".data low ∧ violation = [] then
      specFieldScan rest (decision, specAfterColon ln, explanation)
    else if containsSub "explanation:".data low ∧ explanation = [] then
      specFieldScan rest (decision, violation, specAfterColon ln)
    else
      specFieldScan rest (decision, violation, explanation)

/-- The spec's scanner applied to a whole model output. -/
def specScan (output_text : String) : String × String × String :=
  strTriple (specFieldScan (strippedLines output_text) ([], [], []))

/-- Split a character list at every character satisfying `p`
(the separators are dropped; empty segments are kept). -/
def splitOnPred (p : Char → Bool) : List Char → List (List Char)
  | [] => [[]]
  | c :: t =>
    if p c then [] :: splitOnPred p t
    else
      match splitOnPred p t with
      | [] => [[c]]
      | h :: r => (c :: h) :: r

/-- The whitespace-separated words of a character list. -/
def wordsCh (l : List Char) : List (List Char) :=
  (splitOnPred Char.isWhitespace l).filter (· ≠ [])

/-- Modelled from the spec: "Normalize input by trimming, lowercasing,
and collapsing internal whitespace to single spaces" (spec 4.1) —
lowercase, then rejoin the whitespace-separated words with single
spaces (which also trims both ends). -/
def normalizeLabel (text : String) : String :=
  ⟨List.intercalate [' '] (wordsCh (text.data.map Char.toLower))⟩

/-- `s` starts with `p` (Python `str.startswith`). -/
def strStarts (s p : String) : Bool :=
  p.data.isPrefixOf s.data

/-- First-match lookup in an association table. -/
def lookupTable : List (String × String) → String → Option String
  | [], _ => none
  | (k, v) :: rest, key => if k = key then some v else lookupTable rest key

/-- Modelled from the spec: the "fixed decision table" of section 4.1.
The spec names the table but never lists its contents, so it is left
empty; every claim proved here is independent of its entries. -/
def decision_table : List (String × String) := []

/-- Modelled from the spec: `canonicalize_decision` (spec 4.1) — the
scoring script's decision canonicalizer, absent from `src/`:
normalize; "valid" prefix gives `Valid`; "flag" prefix gives
`Flagged`; otherwise look up the decision table, falling back to the
original trimmed text. -/
def canonicalize_decision (text : String) : String :=
  if strStarts (normalizeLabel text) "valid" then "Valid"
  else if strStarts (normalizeLabel text) "flag" then "Flagged"
  else
    match lookupTable decision_table (normalizeLabel text) with
    | some c => c
    | none => pyStrip text

/-- Modelled from the spec: exact matches of normalized text against
the canonical violation vocabulary (spec 3, 4.1). -/
def violation_exact : List (String × String) :=
  [("no advertisement", "No Advertisement"),
   ("no irrelevant content", "No Irrelevant Content"),
   ("no rant without visit", "No Rant Without Visit"),
   ("none", "None")]

/-- Modelled from the spec: the alias table; the spec gives only the
examples "ads", "promo", "hearsay", "off-topic" (spec 3). -/
def alias_table : List (String × String) :=
  [("ads", "No Advertisement"),
   ("promo", "No Advertisement"),
   ("off-topic", "No Irrelevant Content"),
   ("hearsay", "No Rant Without Visit")]

/-- Modelled from the spec: `canonicalize_violation` (spec 4.1) —
exact match, then alias table, then substring heuristics in fixed
priority order, then empty ↦ `None`, else the original trimmed text. -/
def canonicalize_violation (text : String) : String :=
  let norm := normalizeLabel text
  match lookupTable violation_exact norm with
  | some c => c
  | none =>
    match lookupTable alias_table norm with
    | some c => c
    | none =>
      if containsSub "advert".data norm.data || containsSub "promo".data norm.data then
        "No Advertisement"
      else if containsSub "irrelev".data norm.data || containsSub "offtopic".data norm.data then
        "No Irrelevant Content"
      else if containsSub "visit".data norm.data || containsSub "hearsay".data norm.data
          || containsSub "speculat".data norm.data || containsSub "rant".data norm.data then
        "No Rant Without Visit"
      else if norm = "" then "None"
      else pyStrip text

/-- Modelled from the spec: the caller-enforced cross-field invariant
(spec 4.1/4.2) — "whenever the paired decision is Valid, the violation
is forced to `None`". -/
def effective_violation (decision violation : String) : String :=
  if canonicalize_decision decision = "Valid" then "None"
  else canonicalize_violation violation

/-- Modelled from the spec: one scoring input row (spec 4.2) — raw
predicted and ground-truth labels plus the review text. -/
structure ScoreRow where
  pred_decision : String
  pred_violation : String
  gt_decision : String
  gt_violation : String
  review : String
deriving DecidableEq

/-- A scoring row after canonicalization. -/
structure ScoredRow where
  pred_decision : String
  pred_violation : String
  gt_decision : String
  gt_violation : String
deriving DecidableEq

/-- Modelled from the spec: per-row canonicalization in the scoring
aggregator (spec 4.2) — canonicalize both decisions, and apply the
Valid-forces-None override independently to prediction and ground
truth. -/
def scoreRecord (r : ScoreRow) : ScoredRow :=
  ⟨canonicalize_decision r.pred_decision,
   effective_violation r.pred_decision r.pred_violation,
   canonicalize_decision r.gt_decision,
   effective_violation r.gt_decision r.gt_violation⟩

/-- A rating cell as pandas sees it before `pd.to_numeric`: missing
(`NaN`), a non-numeric string, or a numeric value. -/
inductive RatingCell where
  | missing
  | nonNumeric
  | numeric (q : ℚ)
deriving DecidableEq

/-- An input dataframe row for main.py: the `rating` and `text`
columns (`none` = `NaN`), plus the remaining cells. -/
structure RowIn where
  rating : RatingCell
  text : Option String
  rest : List String
deriving DecidableEq

/-- A cleaned dataframe row: integer rating and the (unstripped)
review text. -/
structure RowOut where
  rating : ℤ
  text : String
  rest : List String
deriving DecidableEq

/-- `df.drop_duplicates()`: keep the first occurrence of each row. -/
def dedupAux (seen : List RowIn) : List RowIn → List RowIn
  | [] => []
  | r :: rs => if r ∈ seen then dedupAux seen rs else r :: dedupAux (r :: seen) rs

def dedupFirst (rows : List RowIn) : List RowIn :=
  dedupAux [] rows

/-- `pd.to_numeric(df['rating'], errors='coerce')`: a numeric cell
keeps its value, everything else becomes `NaN`. -/
def toNumericRating : RatingCell → Option ℚ
  | RatingCell.missing => none
  | RatingCell.nonNumeric => none
  | RatingCell.numeric q => some q

/-- `df.dropna()` (main.py:61): drop rows with a `NaN` in any
column. -/
def dropnaAll (rows : List RowIn) : List RowIn :=
  rows.filter fun r => decide (r.rating ≠ RatingCell.missing ∧ r.text ≠ none)

/-- `to_numeric` then `.clip(lower=0, upper=5)` (main.py:62-63). -/
def numericClipRating (rows : List RowIn) : List (Option ℚ × Option String × List String) :=
  rows.map fun r => ((toNumericRating r.rating).map (fun q => max 0 (min 5 q)), r.text, r.rest)

/-- `df.dropna(subset=['rating'])` (main.py:64). -/
def dropnaRating (rows : List (Option ℚ × Option String × List String)) :
    List (ℚ × Option String × List String) :=
  rows.filterMap fun (q0, t, rest) => q0.map fun q => (q, t, rest)

/-- `df['rating'].astype(int)` (main.py:65): truncation toward zero,
which is `⌊·⌋` here because the clipped value is nonnegative. -/
def intRating (rows : List (ℚ × Option String × List String)) : List RowOut :=
  rows.map fun (q, t, rest) => RowOut.mk ⌊q⌋ (t.getD "") rest

/-- `df[df['text'].astype(str).str.strip() != ""]` (main.py:67). -/
def textFilter (rows : List RowOut) : List RowOut :=
  rows.filter fun r => decide (pyStrip r.text ≠ "")

/-- `clean_dataframe` (main.py:59-69). -/
def clean_dataframe (rows : List RowIn) : List RowOut :=
  textFilter (intRating (dropnaRating (numericClipRating (dropnaAll (dedupFirst rows)))))

/-- main.py file mode (main.py:102-116): after cleaning, the chain is
invoked exactly once per iteration; the payload holds the first five
cleaned review texts (`clean_df['text'].head(5)`), or no review at
all when the cleaned frame is empty (`user_input` stays `''`). -/
def fileModeCalls (rows : List RowIn) : List (List String) :=
  if 0 < (clean_dataframe rows).length then
    [((clean_dataframe rows).map RowOut.text).take 5]
  else [[]]

/-- `_normalize` (test.py:48-49):
`name.strip().lower().replace(" ", "").replace("_", "")`. -/
def normalizeCol (name : String) : String :=
  ⟨((trimChars name.data).map Char.toLower).filter (fun c => !(c == ' ' || c == '_'))⟩

/-- The dict comprehension `{_normalize(h): h for h in headers}`
(test.py:56) read at key `n`: a later header with the same normalized
form overwrites an earlier one, so the LAST matching header wins. -/
def normLookup (headers : List String) (n : String) : Option String :=
  (headers.filter (fun h => normalizeCol h == n)).getLast?

def loc_candidates : List String :=
  ["location", "place", "venue", "restaurant", "store", "hotel", "site", "spot"]

def rev_candidates : List String :=
  ["review", "text", "comment", "feedback", "content", "body", "ratingtext"]

/-- `next((norm_map[n] for n in candidates if n in norm_map), None)`
(test.py:66-67). -/
def firstHit (headers : List String) : List String → Option String
  | [] => none
  | c :: rest =>
    match normLookup headers c with
    | some h => some h
    | none => firstHit headers rest

/-- `_guess_columns` (test.py:51-68). -/
def guessColumns (headers : List String) : Option String × Option String :=
  (firstHit headers loc_candidates, firstHit headers rev_candidates)

/-- A `csv.DictReader` row: header name to cell value, keys unique. -/
abbrev CsvRow := List (String × String)

/-- Python `row.get(col)`. -/
def lookupCell : List (String × String) → String → Option String
  | [], _ => none
  | (k, v) :: rest, key => if k = key then some v else lookupCell rest key

/-- Python `row[k] = v` on a dict: replace the value in place if the
key exists, otherwise append the pair. -/
def dictSet : List (String × String) → String → String → List (String × String)
  | [], k, v => [(k, v)]
  | (k0, v0) :: rest, k, v =>
    if k0 = k then (k, v) :: rest else (k0, v0) :: dictSet rest k v

/-- `row["Decision"] = d; row["Primary Violation"] = v;
row["Explanation"] = e` (test.py:151-153 and 160-162). -/
def setResultFields (row : CsvRow) (d v e : String) : CsvRow :=
  dictSet (dictSet (dictSet row "Decision" d) "Primary Violation" v) "Explanation" e

/-- One iteration of `for row in reader` (test.py:144-167),
parameterized by the external text-generation service `llm`
(location and review in, raw model text out).  Result: the written
row plus `some payload` when the chain was invoked (the payload lists
the review texts passed — always exactly one here) or `none` when the
review was blank and the chain was skipped.  The outer `none` embeds
an uncaught exception from `_parse_model_output`. -/
def processRow (llm : String → String → String) (locCol revCol : String) (row : CsvRow) :
    Option (CsvRow × Option (List String)) :=
  if pyStrip ((lookupCell row revCol).getD "") = "" then
    some (setResultFields row "" "" "", none)
  else
    match parseModelOutput
        (llm (pyStrip ((lookupCell row locCol).getD ""))
             (pyStrip ((lookupCell row revCol).getD ""))) with
    | none => none
    | some (d, v, e) =>
      some (setResultFields row d v e,
            some [pyStrip ((lookupCell row revCol).getD "")])

/-- The whole row loop: output rows in order plus the list of external
invocations made (each one the list of review texts it carried). -/
def processRows (llm : String → String → String) (locCol revCol : String) :
    List CsvRow → Option (List CsvRow × List (List String))
  | [] => some ([], [])
  | r :: rs =>
    match processRow llm locCol revCol r with
    | none => none
    | some (out, call) =>
      match processRows llm locCol revCol rs with
      | none => none
      | some (outs, calls) => some (out :: outs, call.toList ++ calls)

/-- Index of the last occurrence of `c` in `l`, if any. -/
def lastIdx (c : Char) (l : List Char) : Option Nat :=
  match l.reverse.findIdx? (· == c) with
  | none => none
  | some i => some (l.length - 1 - i)

/-- `os.path.splitext`: split at the last dot, provided it lies in the
last path component and is preceded there by some non-dot character
(so `.bashrc` keeps its leading dot and has no extension). -/
def splitext (p : String) : String × String :=
  match lastIdx '.' p.data with
  | none => (p, "")
  | some dot =>
    let start := match lastIdx '/' p.data with
      | none => 0
      | some sep => sep + 1
    if start ≤ dot ∧ ((p.data.drop start).take (dot - start)).any (fun c => !(c == '.')) then
      (⟨p.data.take dot⟩, ⟨p.data.drop dot⟩)
    else (p, "")

/-- `f"{base}_evaluated{ext}"` (test.py:130-131). -/
def evaluatedPath (path : String) : String :=
  (splitext path).1 ++ "_evaluated" ++ (splitext path).2

/-- Column resolution (test.py:117-127): auto-detect; if either column
is missing, fall back to the operator-supplied names (both re-read),
and `sys.exit(1)` (= `none`) when a supplied name is not a header. -/
def resolveColumns (headers : List String) (locIn revIn : String) : Option (String × String) :=
  match guessColumns headers with
  | (some l, some r) => some (l, r)
  | _ =>
    if pyStrip locIn ∈ headers ∧ pyStrip revIn ∈ headers then
      some (pyStrip locIn, pyStrip revIn)
    else none

/-- `process_csv` (test.py:101-169), with file I/O abstracted to the
header list and row list, the interactive column prompts to
`locIn`/`revIn`, and the model to `llm`.  `none` embeds `sys.exit(1)`
or an uncaught exception; `some` carries the output path, the output
header, the written rows, and the external invocations made. -/
def processCsv (llm : String → String → String) (locIn revIn : String) (path : String)
    (headers : List String) (rows : List CsvRow) :
    Option (String × List String × List CsvRow × List (List String)) :=
  if headers = [] then none
  else
    match resolveColumns headers locIn revIn with
    | none => none
    | some (locCol, revCol) =>
      match processRows llm locCol revCol rows with
      | none => none
      | some (outs, calls) =>
        some (evaluatedPath path,
              headers ++ ["Decision", "Primary Violation", "Explanation"],
              outs, calls)

/-- `file_name.split(".")[-1].lower()` (main.py:72). -/
def fileFormat (file_name : String) : String :=
  ⟨((splitOnPred (fun c => c == '.') file_name.data).getLastD []).map Char.toLower⟩

/-- The pandas reader `read_file` dispatches to (main.py:74-81). -/
inductive PandasReader where
  | readCsv
  | readExcel
  | readJson
  | readXml
deriving DecidableEq

/-- `read_file` (main.py:71-85): dispatch on the extension;
`Except.error` embeds the raised `ValueError` with its message. -/
def read_file (file_name : String) : Except String PandasReader :=
  if fileFormat file_name = "csv" then Except.ok PandasReader.readCsv
  else if fileFormat file_name ∈ ["xls", "xlsx", "xlsm", "xlsb", "ods"] then
    Except.ok PandasReader.readExcel
  else if fileFormat file_name = "json" then Except.ok PandasReader.readJson
  else if fileFormat file_name = "xml" then Except.ok PandasReader.readXml
  else Except.error ("Unsupported file format: " ++ fileFormat file_name)

example : parseModelOutput "Decision: Valid\nPrimary Violation: None\nExplanation: ok"
    = some ("Valid", "None", "ok") := by decide

example : parseModelOutput "no fields here" = some ("", "", "") := by decide

example : parseModelOutput "primary violation" = none := by decide

theorem specAfterColon_of_some {ln t : List Char} (h : afterFirstColon ln = some t) :
    specAfterColon ln = trimChars t := by
  simp [specAfterColon, h]

theorem parseLines_eq_specFieldScan (lines : List (List Char)) :
    ∀ d v e out, parseLines lines d v e = some out → specFieldScan lines (d, v, e) = out := by
  induction lines with
  | nil =>
    intro d v e out h
    simpa [parseLines, specFieldScan] using h
  | cons ln rest ih =>
    intro d v e out h
    rw [parseLines] at h
    rw [specFieldScan]
    split at h
    · cases hc : afterFirstColon ln with
      | none => rw [hc] at h; simp at h
      | some t =>
        rw [hc] at h
        rw [Option.some_bind] at h
        rw [if_pos (by assumption)]
        rw [specAfterColon_of_some hc]
        exact ih _ _ _ _ h
    · split at h
      · cases hc : afterFirstColon ln with
        | none => rw [hc] at h; simp at h
        | some t =>
          rw [hc] at h
          rw [Option.some_bind] at h
          rw [if_neg (by assumption), if_pos (by assumption)]
          rw [specAfterColon_of_some hc]
          exact ih _ _ _ _ h
      · split at h
        · cases hc : afterFirstColon ln with
          | none => rw [hc] at h; simp at h
          | some t =>
            rw [hc] at h
            rw [Option.some_bind] at h
            rw [if_neg (by assumption), if_neg (by assumption), if_pos (by assumption)]
            rw [specAfterColon_of_some hc]
            exact ih _ _ _ _ h
        · rw [if_neg (by assumption), if_neg (by assumption), if_neg (by assumption)]
          exact ih _ _ _ _ h

/-- C1: `_parse_model_output` does NOT return on every input: on the
single-line input `"primary violation"` — the token without a colon —
the code executes `ln.split(":", 1)[1]` on a one-element list and
raises `IndexError` (embedded as `none`), contradicting the spec's
"never raises". -/
theorem parseModelOutput_crashes_on_colonless_violation :
    parseModelOutput "primary violation" = none := by decide

/-- C2: whenever `_parse_model_output` returns a triple, that triple
is exactly what the spec's line scanner describes: scanning the
non-blank stripped lines for the literal tokens `decision:`,
`primary violation`, `explanation:` as case-insensitive substrings,
each still-unset field is filled from its first matching line with the
text after that line's first colon, trimmed; unfound fields stay
empty. -/
theorem parseModelOutput_refines_specScan (s : String) (out : String × String × String)
    (h : parseModelOutput s = some out) : specScan s = out := by
  unfold parseModelOutput at h
  unfold specScan
  cases hp : parseLines (strippedLines s) [] [] [] with
  | none => rw [hp] at h; exact Option.noConfusion h
  | some t =>
    rw [hp] at h
    obtain ⟨d, v, e⟩ := t
    rw [parseLines_eq_specFieldScan _ _ _ _ _ hp]
    exact Option.some.inj h

/-- Witness for C2 at a concrete model output. -/
theorem parseModelOutput_refines_specScan_witness :
    specScan "Decision: Valid\nPrimary Violation: None\nExplanation: fine"
      = ("Valid", "None", "fine") :=
  parseModelOutput_refines_specScan _ _ (by decide)

example : normalizeLabel "  FlAg  GED \t x " = "flag ged x" := by decide

example : canonicalize_violation "ads" = "No Advertisement" := by decide

example : canonicalize_violation "speculation" = "No Rant Without Visit" := by decide

/-- C3: for every scoring record, whenever the canonical decision is
`Valid`, the violation used downstream — the record's effective
violation on the prediction side and on the ground-truth side — is
`None`, regardless of the raw violation text. -/
theorem scoreRecord_valid_forces_none (r : ScoreRow) :
    (canonicalize_decision r.pred_decision = "Valid" →
      (scoreRecord r).pred_violation = "None") ∧
    (canonicalize_decision r.gt_decision = "Valid" →
      (scoreRecord r).gt_violation = "None") := by
  constructor <;> intro h <;> simp [scoreRecord, effective_violation, h]

/-- Witness for C3: a record that says `Valid` but carries raw
violation text. -/
theorem scoreRecord_valid_forces_none_witness :
    (scoreRecord ⟨"Valid", "speculation", "valid!", "hearsay", "r"⟩).pred_violation = "None" ∧
    (scoreRecord ⟨"Valid", "speculation", "valid!", "hearsay", "r"⟩).gt_violation = "None" :=
  ⟨(scoreRecord_valid_forces_none _).1 (by decide),
   (scoreRecord_valid_forces_none _).2 (by decide)⟩

theorem strStarts_flag_not_valid (s : String) (h : strStarts s "flag" = true) :
    strStarts s "valid" = false := by
  unfold strStarts at h ⊢
  have hf : "flag".data = 'f' :: 'l' :: 'a' :: 'g' :: [] := rfl
  have hv : "valid".data = 'v' :: 'a' :: 'l' :: 'i' :: 'd' :: [] := rfl
  rw [hf] at h
  rw [hv]
  cases hd : s.data with
  | nil => rw [hd] at h; exact absurd h (by decide)
  | cons c t =>
    rw [hd] at h
    rw [List.isPrefixOf_cons₂] at h ⊢
    have hc : c = 'f' := (beq_iff_eq.mp ((Bool.and_eq_true _ _).mp h).1).symm
    subst hc
    simp

/-- C4: every decision string whose normalized form starts with
"valid" canonicalizes to exactly `Valid`, and every one whose
normalized form starts with "flag" canonicalizes to exactly
`Flagged`. -/
theorem canonicalize_decision_valid_flag (text : String) :
    (strStarts (normalizeLabel text) "valid" = true →
      canonicalize_decision text = "Valid") ∧
    (strStarts (normalizeLabel text) "flag" = true →
      canonicalize_decision text = "Flagged") := by
  constructor
  · intro h
    unfold canonicalize_decision
    rw [if_pos h]
  · intro h
    have hv := strStarts_flag_not_valid _ h
    unfold canonicalize_decision
    rw [if_neg (by simp [hv]), if_pos h]

/-- Witness for C4 at concrete decision strings. -/
theorem canonicalize_decision_valid_flag_witness :
    canonicalize_decision "  VALID review " = "Valid" ∧
    canonicalize_decision "FLAGGED (policy 1)" = "Flagged" :=
  ⟨(canonicalize_decision_valid_flag _).1 (by decide),
   (canonicalize_decision_valid_flag _).2 (by decide)⟩

example :
    clean_dataframe
      [RowIn.mk (RatingCell.numeric 7) (some " tasty ") [],
       RowIn.mk RatingCell.nonNumeric (some "x") [],
       RowIn.mk (RatingCell.numeric 3) (some "  ") []]
      = [RowOut.mk 5 " tasty " []] := by decide

theorem mem_dedupAux (l : List RowIn) :
    ∀ seen x, x ∈ dedupAux seen l → x ∈ l := by
  induction l with
  | nil => intro seen x h; simp [dedupAux] at h
  | cons r rs ih =>
    intro seen x h
    rw [dedupAux] at h
    by_cases hr : r ∈ seen
    · rw [if_pos hr] at h
      exact List.mem_cons_of_mem _ (ih _ _ h)
    · rw [if_neg hr] at h
      rcases List.mem_cons.mp h with h1 | h2
      · exact h1 ▸ List.mem_cons_self _ _
      · exact List.mem_cons_of_mem _ (ih _ _ h2)

/-- C6: every row of the cleaned dataframe has an integer rating in
`[0, 5]` and non-blank review text, and descends from an input row
whose rating was numeric, clamped to the nearest bound; rows with
non-numeric or missing ratings, and rows with blank text, never
survive. -/
theorem clean_dataframe_spec (rows : List RowIn) (r : RowOut)
    (h : r ∈ clean_dataframe rows) :
    (0 ≤ r.rating ∧ r.rating ≤ 5) ∧ pyStrip r.text ≠ "" ∧
    ∃ src ∈ rows, src.text = some r.text ∧
      ∃ q : ℚ, src.rating = RatingCell.numeric q ∧ r.rating = ⌊max 0 (min 5 q)⌋ := by
  unfold clean_dataframe textFilter intRating dropnaRating numericClipRating dropnaAll at h
  simp only [List.mem_filter, List.mem_map, List.mem_filterMap, decide_eq_true_iff,
    Prod.mk.injEq, Option.map_eq_some', toNumericRating] at h
  obtain ⟨⟨a, ⟨⟨a1, ⟨⟨src, hS, hT⟩, ⟨a2, h11, hU⟩⟩⟩, hV⟩⟩, hW⟩ := h
  obtain ⟨hmem, hrat, htext⟩ := hS
  subst hT
  subst hU
  subst hV
  dsimp only at h11 hW ⊢
  cases hr : src.rating with
  | missing => rw [hr] at h11; simp at h11
  | nonNumeric => rw [hr] at h11; simp at h11
  | numeric q =>
    rw [hr] at h11
    have ha2 : (0 : ℚ) ⊔ 5 ⊓ q = a2 := Option.some.inj h11
    cases ht : src.text with
    | none => exact absurd ht htext
    | some t0 =>
      refine ⟨?_, by rw [ht] at hW; simpa using hW, src, mem_dedupAux rows [] src hmem,
        ⟨by rw [ht]; simp, q, hr, by rw [← ha2]⟩⟩
      rw [← ha2]
      constructor
      · exact Int.le_floor.mpr (by push_cast; exact le_sup_left)
      · have h5 : (0 : ℚ) ⊔ 5 ⊓ q ≤ 5 := sup_le (by norm_num) inf_le_left
        calc ⌊(0 : ℚ) ⊔ 5 ⊓ q⌋ ≤ ⌊(5 : ℚ)⌋ := Int.floor_le_floor h5
          _ = 5 := by norm_num

/-- Witness for C6: a clamped row (input rating 7) survives cleaning
with rating 5 and non-blank text. -/
theorem clean_dataframe_spec_witness :
    (0 ≤ (RowOut.mk 5 " tasty " []).rating ∧ (RowOut.mk 5 " tasty " []).rating ≤ 5) ∧
    pyStrip (RowOut.mk 5 " tasty " []).text ≠ "" ∧
    ∃ src ∈ [RowIn.mk (RatingCell.numeric 7) (some " tasty ") []],
      src.text = some (RowOut.mk 5 " tasty " []).text ∧
      ∃ q : ℚ, src.rating = RatingCell.numeric q ∧
        (RowOut.mk 5 " tasty " []).rating = ⌊max 0 (min 5 q)⌋ :=
  clean_dataframe_spec _ _ (by decide)

/-- C5 counterexample: with a cleaned dataframe holding two reviews,
main.py's file mode makes a single external invocation whose payload
contains both review texts — the service IS called with a batch of
several reviews in one call, refuting the claim for this mode. -/
theorem fileModeCalls_batches_two_reviews :
    fileModeCalls
      [RowIn.mk (RatingCell.numeric 5) (some "good food") [],
       RowIn.mk (RatingCell.numeric 4) (some "bad service") []]
      = [["good food", "bad service"]] := by decide

example : evaluatedPath "reviews.csv" = "reviews_evaluated.csv" := by decide

example : evaluatedPath "data/.bashrc" = "data/.bashrc_evaluated" := by decide

example : read_file "a.tar.GZ" = Except.error "Unsupported file format: gz" := by rfl

theorem lookupCell_dictSet_ne (cells : List (String × String)) (k v k' : String)
    (h : k' ≠ k) : lookupCell (dictSet cells k v) k' = lookupCell cells k' := by
  induction cells with
  | nil => simp [dictSet, lookupCell, Ne.symm h]
  | cons p rest ih =>
    obtain ⟨k0, v0⟩ := p
    rw [dictSet]
    by_cases h0 : k0 = k
    · subst h0
      rw [if_pos rfl, lookupCell, lookupCell, if_neg (fun hk => h hk.symm),
        if_neg (fun hk => h hk.symm)]
    · rw [if_neg h0, lookupCell, lookupCell]
      by_cases h1 : k0 = k'
      · rw [if_pos h1, if_pos h1]
      · rw [if_neg h1, if_neg h1]
        exact ih

theorem lookupCell_dictSet_self (cells : List (String × String)) (k v : String) :
    lookupCell (dictSet cells k v) k = some v := by
  induction cells with
  | nil => simp [dictSet, lookupCell]
  | cons p rest ih =>
    obtain ⟨k0, v0⟩ := p
    rw [dictSet]
    by_cases h0 : k0 = k
    · rw [if_pos h0, lookupCell, if_pos rfl]
    · rw [if_neg h0, lookupCell, if_neg h0]
      exact ih

/-- C7: whenever `process_csv` succeeds, the output CSV's header is
exactly the input header with `Decision`, `Primary Violation`,
`Explanation` appended in that order, and the output path is the
input path with `_evaluated` inserted before the extension. -/
theorem processCsv_header_and_path (llm : String → String → String)
    (locIn revIn path : String) (headers : List String) (rows : List CsvRow)
    (outPath : String) (outHeaders : List String) (outRows : List CsvRow)
    (calls : List (List String))
    (h : processCsv llm locIn revIn path headers rows
      = some (outPath, outHeaders, outRows, calls)) :
    outHeaders = headers ++ ["Decision", "Primary Violation", "Explanation"] ∧
    outPath = evaluatedPath path := by
  unfold processCsv at h
  split at h
  · exact Option.noConfusion h
  · split at h
    · exact Option.noConfusion h
    · split at h
      · exact Option.noConfusion h
      · simp only [Option.some.injEq, Prod.mk.injEq] at h
        obtain ⟨h1, h2, -, -⟩ := h
        exact ⟨h2.symm, h1.symm⟩

/-- Witness for C7 on a concrete two-column CSV. -/
theorem processCsv_header_and_path_witness :
    (["location", "review", "Decision", "Primary Violation", "Explanation"] : List String)
        = ["location", "review"] ++ ["Decision", "Primary Violation", "Explanation"] ∧
    "r_evaluated.csv" = evaluatedPath "r.csv" :=
  processCsv_header_and_path (fun _ _ => "") "" "" "r.csv" ["location", "review"] []
    "r_evaluated.csv" ["location", "review", "Decision", "Primary Violation", "Explanation"]
    [] [] (by rfl)

/-- C8: when the location/review columns cannot be auto-detected and
an operator-supplied name is still not among the headers, the program
terminates with `sys.exit(1)` (embedded as `none`). -/
theorem processCsv_bad_columns_exit (llm : String → String → String)
    (locIn revIn path : String) (headers : List String) (rows : List CsvRow)
    (hg : (guessColumns headers).1 = none ∨ (guessColumns headers).2 = none)
    (hbad : pyStrip locIn ∉ headers ∨ pyStrip revIn ∉ headers) :
    processCsv llm locIn revIn path headers rows = none := by
  have hcond : ¬(pyStrip locIn ∈ headers ∧ pyStrip revIn ∈ headers) := by
    rcases hbad with hb | hb <;> intro hc <;> exact hb (by tauto)
  have hres : resolveColumns headers locIn revIn = none := by
    unfold resolveColumns
    rcases hGC : guessColumns headers with ⟨g1, g2⟩
    rw [hGC] at hg
    cases g1 with
    | none => cases g2 <;> simp [hcond]
    | some a =>
      cases g2 with
      | none => simp [hcond]
      | some b => rcases hg with hg | hg <;> exact Option.noConfusion hg
  unfold processCsv
  split
  · rfl
  · rw [hres]

/-- Witness for C8: headers that defeat auto-detection and bad
operator input. -/
theorem processCsv_bad_columns_exit_witness :
    processCsv (fun _ _ => "") "colA" "colB" "p.csv" ["a", "b"] [] = none :=
  processCsv_bad_columns_exit (fun _ _ => "") "colA" "colB" "p.csv" ["a", "b"] []
    (by decide) (by decide)

/-- C9: `read_file` dispatches csv/excel/json/xml extensions to the
corresponding pandas reader and rejects every other extension with a
`ValueError` whose message names it. -/
theorem read_file_dispatch (file_name : String) :
    (fileFormat file_name = "csv" → read_file file_name = Except.ok PandasReader.readCsv) ∧
    (fileFormat file_name ∈ ["xls", "xlsx", "xlsm", "xlsb", "ods"] →
      read_file file_name = Except.ok PandasReader.readExcel) ∧
    (fileFormat file_name = "json" → read_file file_name = Except.ok PandasReader.readJson) ∧
    (fileFormat file_name = "xml" → read_file file_name = Except.ok PandasReader.readXml) ∧
    (fileFormat file_name ∉ ["csv", "xls", "xlsx", "xlsm", "xlsb", "ods", "json", "xml"] →
      read_file file_name = Except.error ("Unsupported file format: " ++ fileFormat file_name)) := by
  refine ⟨?_, ?_, ?_, ?_, ?_⟩
  · intro h
    unfold read_file
    rw [if_pos h]
  · intro h
    have h1 : fileFormat file_name ≠ "csv" := by
      intro hc; rw [hc] at h; exact absurd h (by decide)
    unfold read_file
    rw [if_neg h1, if_pos h]
  · intro h
    have h1 : fileFormat file_name ≠ "csv" := by
      intro hc; exact absurd (hc.symm.trans h) (by decide)
    have h2 : fileFormat file_name ∉ ["xls", "xlsx", "xlsm", "xlsb", "ods"] := by
      intro hm; rw [h] at hm; exact absurd hm (by decide)
    unfold read_file
    rw [if_neg h1, if_neg h2, if_pos h]
  · intro h
    have h1 : fileFormat file_name ≠ "csv" := by
      intro hc; exact absurd (hc.symm.trans h) (by decide)
    have h2 : fileFormat file_name ∉ ["xls", "xlsx", "xlsm", "xlsb", "ods"] := by
      intro hm; rw [h] at hm; exact absurd hm (by decide)
    have h3 : fileFormat file_name ≠ "json" := by
      intro hc; exact absurd (hc.symm.trans h) (by decide)
    unfold read_file
    rw [if_neg h1, if_neg h2, if_neg h3, if_pos h]
  · intro h
    have hsub : ∀ x : String, x ∈ ["xls", "xlsx", "xlsm", "xlsb", "ods"] →
        x ∈ ["csv", "xls", "xlsx", "xlsm", "xlsb", "ods", "json", "xml"] := by
      intro x hx
      simp only [List.mem_cons] at hx ⊢
      tauto
    have h1 : fileFormat file_name ≠ "csv" := by
      intro hc; exact h (by rw [hc]; decide)
    have h2 : fileFormat file_name ∉ ["xls", "xlsx", "xlsm", "xlsb", "ods"] :=
      fun hm => h (hsub _ hm)
    have h3 : fileFormat file_name ≠ "json" := by
      intro hc; exact h (by rw [hc]; decide)
    have h4 : fileFormat file_name ≠ "xml" := by
      intro hc; exact h (by rw [hc]; decide)
    unfold read_file
    rw [if_neg h1, if_neg h2, if_neg h3, if_neg h4]

/-- Witness for C9 across the three dispatch outcomes. -/
theorem read_file_dispatch_witness :
    read_file "reviews.CSV" = Except.ok PandasReader.readCsv ∧
    read_file "book.XLSX" = Except.ok PandasReader.readExcel ∧
    read_file "notes.txt" = Except.error ("Unsupported file format: " ++ fileFormat "notes.txt") :=
  ⟨(read_file_dispatch "reviews.CSV").1 (by decide),
   (read_file_dispatch "book.XLSX").2.1 (by decide),
   (read_file_dispatch "notes.txt").2.2.2.2 (by decide)⟩

/-- C10 counterexample: when the input CSV itself has a `Decision`
column, a blank-review row is NOT written with all original values
unchanged — `row["Decision"] = ""` overwrites the original cell value
`"X"` with the empty string (and the duplicated header makes the
written row lose `"X"` entirely). -/
theorem processCsv_overwrites_decision_column :
    processCsv (fun _ _ => "") "" "" "in.csv" ["Location", "Review", "Decision"]
        [[("Location", "L"), ("Review", " "), ("Decision", "X")]]
      = some ("in_evaluated.csv",
          ["Location", "Review", "Decision", "Decision", "Primary Violation", "Explanation"],
          [[("Location", "L"), ("Review", " "), ("Decision", ""),
            ("Primary Violation", ""), ("Explanation", "")]],
          []) ∧
    lookupCell [("Location", "L"), ("Review", " "), ("Decision", ""),
        ("Primary Violation", ""), ("Explanation", "")] "Decision" ≠ some "X" :=
  ⟨by rfl, by decide⟩

/-- C10 (amended): for every row whose review cell is blank after
stripping, the external model is not invoked, the three result
columns are set to the empty string, and every cell under a key other
than `Decision`, `Primary Violation`, `Explanation` keeps its
original value (a pre-existing cell under one of those three names is
overwritten with the empty string). -/
theorem blank_review_row_passthrough (llm : String → String → String)
    (locCol revCol : String) (row : CsvRow)
    (h : pyStrip ((lookupCell row revCol).getD "") = "") :
    processRow llm locCol revCol row = some (setResultFields row "" "" "", none) ∧
    (∀ k, k ≠ "Decision" → k ≠ "Primary Violation" → k ≠ "Explanation" →
      lookupCell (setResultFields row "" "" "") k = lookupCell row k) ∧
    lookupCell (setResultFields row "" "" "") "Decision" = some "" ∧
    lookupCell (setResultFields row "" "" "") "Primary Violation" = some "" ∧
    lookupCell (setResultFields row "" "" "") "Explanation" = some "" := by
  refine ⟨by rw [processRow, if_pos h], ?_, ?_, ?_, ?_⟩
  · intro k hk1 hk2 hk3
    unfold setResultFields
    rw [lookupCell_dictSet_ne _ _ _ _ hk3, lookupCell_dictSet_ne _ _ _ _ hk2,
      lookupCell_dictSet_ne _ _ _ _ hk1]
  · unfold setResultFields
    rw [lookupCell_dictSet_ne _ _ _ _ (by decide), lookupCell_dictSet_ne _ _ _ _ (by decide),
      lookupCell_dictSet_self]
  · unfold setResultFields
    rw [lookupCell_dictSet_ne _ _ _ _ (by decide), lookupCell_dictSet_self]
  · unfold setResultFields
    rw [lookupCell_dictSet_self]

/-- Witness for the amended C10 on a concrete blank-review row. -/
theorem blank_review_row_passthrough_witness :
    processRow (fun _ _ => "") "Location" "Review" [("Location", "L"), ("Review", " ")]
        = some (setResultFields [("Location", "L"), ("Review", " ")] "" "" "", none) ∧
    lookupCell (setResultFields [("Location", "L"), ("Review", " ")] "" "" "") "Location"
        = lookupCell [("Location", "L"), ("Review", " ")] "Location" ∧
    lookupCell (setResultFields [("Location", "L"), ("Review", " ")] "" "" "") "Decision"
        = some "" :=
  ⟨(blank_review_row_passthrough (fun _ _ => "") "Location" "Review" _ (by decide)).1,
   (blank_review_row_passthrough (fun _ _ => "") "Location" "Review" _ (by decide)).2.1
     "Location" (by decide) (by decide) (by decide),
   (blank_review_row_passthrough (fun _ _ => "") "Location" "Review" _ (by decide)).2.2.1⟩

theorem processRow_call_len (llm : String → String → String) (locCol revCol : String)
    (row : CsvRow) (out : CsvRow) (call : Option (List String))
    (h : processRow llm locCol revCol row = some (out, call)) :
    ∀ c ∈ call.toList, c.length = 1 := by
  unfold processRow at h
  split at h
  · simp only [Option.some.injEq, Prod.mk.injEq] at h
    obtain ⟨-, h2⟩ := h
    rw [← h2]
    intro c hc
    simp at hc
  · split at h
    · exact Option.noConfusion h
    · simp only [Option.some.injEq, Prod.mk.injEq] at h
      obtain ⟨-, h2⟩ := h
      rw [← h2]
      intro c hc
      simp at hc
      rw [hc]
      rfl

/-- C5 (amended): in test.py every external invocation carries
exactly one review — one call per non-blank CSV row — while main.py's
file mode performs exactly one invocation per iteration whose payload
holds up to the first five cleaned review texts. -/
theorem per_review_invocation_amended :
    (∀ (llm : String → String → String) (locCol revCol : String) (rows : List CsvRow)
      (outs : List CsvRow) (calls : List (List String)),
      processRows llm locCol revCol rows = some (outs, calls) →
      ∀ c ∈ calls, c.length = 1) ∧
    (∀ rows : List RowIn, (fileModeCalls rows).length = 1 ∧
      ∀ c ∈ fileModeCalls rows, c.length ≤ 5) := by
  constructor
  · intro llm locCol revCol rows
    induction rows with
    | nil =>
      intro outs calls h
      simp only [processRows, Option.some.injEq, Prod.mk.injEq] at h
      obtain ⟨-, h2⟩ := h
      rw [← h2]
      intro c hc
      simp at hc
    | cons r rs ih =>
      intro outs calls h
      rw [processRows] at h
      split at h
      · exact Option.noConfusion h
      · split at h
        · exact Option.noConfusion h
        · simp only [Option.some.injEq, Prod.mk.injEq] at h
          obtain ⟨-, h2⟩ := h
          rw [← h2]
          intro c hc
          rcases List.mem_append.mp hc with hc1 | hc2
          · exact processRow_call_len llm locCol revCol r _ _ (by assumption) c hc1
          · exact ih _ _ (by assumption) c hc2
  · intro rows
    unfold fileModeCalls
    split
    · refine ⟨rfl, ?_⟩
      intro c hc
      simp only [List.mem_singleton] at hc
      rw [hc, List.length_take]
      exact min_le_left _ _
    · refine ⟨rfl, ?_⟩
      intro c hc
      simp only [List.mem_singleton] at hc
      rw [hc]
      decide

/-- Witness for the amended C5: a one-row CSV yields one call with
one review; an empty dataframe still yields exactly one file-mode
invocation. -/
theorem per_review_invocation_amended_witness :
    (["hi"] : List String).length = 1 ∧ (fileModeCalls []).length = 1 :=
  ⟨per_review_invocation_amended.1 (fun _ _ => "Decision: Valid") "Location" "Review"
      [[("Location", "L"), ("Review", "hi")]]
      [[("Location", "L"), ("Review", "hi"), ("Decision", "Valid"),
        ("Primary Violation", ""), ("Explanation", "")]]
      [["hi"]] (by rfl) ["hi"] (by decide),
   (per_review_invocation_amended.2 []).1⟩
